import Mathlib

/-!
# Verification of the rig monitoring agent (`agent.py`)

A shallow embedding of the telemetry agent in `src/agent-package/agent.py`.
The agent samples OS metrics, detects a running workload process, resolves
network identity, composes a status report (a Python dict), and POSTs it to
a collector.  All OS and network effects are modelled as explicit inputs
(query results passed as `Except`/plain values); Python dicts are modelled
as association lists where a later binding shadows an earlier one, exactly
as successive `**` unpackings do in a Python dict literal.
-/

set_option autoImplicit false

namespace Agent

/-- A Python/JSON value, as it can appear in the config file and in the
status-report dict. -/
inductive Value where
  | str (s : String)
  | num (q : ℚ)
  | bool (b : Bool)
  | null
  | list (xs : List Value)
  | dict (xs : List (String × Value))

/-- Dict lookup for the association-list model of a Python dict built with
`**` unpacking: the LAST binding of a key wins, as later merges overwrite
earlier ones. -/
def dget : List (String × Value) → String → Option Value
  | [], _ => none
  | (k, v) :: rest, key =>
    match dget rest key with
    | some w => some w
    | none => if k = key then some v else none

/-! ## Rounding

Python's built-in `round(x, n)` rounds half to even.  We model the numeric
values with exact rationals. -/

/-- Round a rational to the nearest integer, ties to even (Python's
`round` tie-breaking rule). -/
def roundHalfEven (q : ℚ) : ℤ :=
  if q - ⌊q⌋ < 1 / 2 then ⌊q⌋
  else if q - ⌊q⌋ > 1 / 2 then ⌊q⌋ + 1
  else if ⌊q⌋ % 2 = 0 then ⌊q⌋ else ⌊q⌋ + 1

/-- Python `round(q, n)` on an exact rational. -/
def pyRound (q : ℚ) (n : ℕ) : ℚ :=
  (roundHalfEven (q * 10 ^ n) : ℚ) / 10 ^ n

/-! ## MetricsCollector — `RigAgent.collect_system_status`

Each `psutil` query is modelled by its result: `.ok v` when the OS call
returns `v`, `.error e` when it raises.  `boot_time` is queried on the line
BEFORE the `try:` block in the source; the remaining queries happen inside
the `try:` whose `except Exception` returns `{}`. -/

/-- The OS-level inputs of one `collect_system_status` call. -/
structure OsQueries where
  /-- Result of `psutil.boot_time()`, seconds since the epoch (queried before the `try`). -/
  boot_time : Except String ℚ
  /-- Result of `psutil.cpu_percent(interval=1)`. -/
  cpu_percent : Except String ℚ
  /-- Result of `psutil.virtual_memory().percent`. -/
  vm_percent : Except String ℚ
  /-- Result of `psutil.virtual_memory().used`, bytes. -/
  vm_used : Except String ℚ
  /-- Result of `psutil.virtual_memory().total`, bytes. -/
  vm_total : Except String ℚ
  /-- Result of `psutil.disk_usage("C:\\").percent`. -/
  disk_percent : Except String ℚ
  /-- Result of `psutil.disk_usage("C:\\").free`, bytes. -/
  disk_free : Except String ℚ
  /-- Result of `datetime.now()`, seconds since the epoch. -/
  now : ℚ

/-- Byte count to gigabytes: `round(b / (1024**3), 2)`. -/
def bytesToGb (b : ℚ) : ℚ := pyRound (b / 1024 ^ 3) 2

/-- Uptime in hours: `round((now - boot_time).total_seconds() / 3600, 1)`. -/
def uptimeHours (now boot : ℚ) : ℚ := pyRound ((now - boot) / 3600) 1

/-- Embeds `RigAgent.collect_system_status`.  A failing `boot_time` query raises
outside the `try`, so it propagates (`.error`); a failure of any query
inside the `try` is caught and yields the empty dict `{}`. -/
def collect_system_status (q : OsQueries) : Except String (List (String × Value)) :=
  match q.boot_time with
  | .error e => .error e
  | .ok bt =>
    .ok (match q.cpu_percent, q.vm_percent, q.vm_used, q.vm_total,
               q.disk_percent, q.disk_free with
      | .ok c, .ok mp, .ok mu, .ok mt, .ok dp, .ok df =>
        [("cpu_percent", Value.num c),
         ("memory_percent", Value.num mp),
         ("memory_used_gb", Value.num (bytesToGb mu)),
         ("memory_total_gb", Value.num (bytesToGb mt)),
         ("disk_percent", Value.num dp),
         ("disk_free_gb", Value.num (bytesToGb df)),
         ("uptime_hours", Value.num (uptimeHours q.now bt))]
      | _, _, _, _, _, _ => [])

/-! ## ProcessProbe — `RigAgent.check_test_running` -/

/-- One entry of `psutil.process_iter(["name"])`: either the process name is
readable, or accessing it raises `NoSuchProcess`/`AccessDenied` (the entry
is skipped by the `except ... continue`). -/
inductive ProcEntry where
  | ok (name : String)
  | denied
  deriving DecidableEq

/-- Embeds `RigAgent.check_test_running`: scan the live process table, return
`(True, name)` on the first process whose name is in `test_processes`
(exact, case-sensitive string membership), else `(False, None)`.
Inaccessible entries are skipped. -/
def check_test_running (test_processes : List String) :
    List ProcEntry → Bool × Option String
  | [] => (false, none)
  | ProcEntry.ok n :: rest =>
    if n ∈ test_processes then (true, some n)
    else check_test_running test_processes rest
  | ProcEntry.denied :: rest => check_test_running test_processes rest

/-! ## NetworkProbe — `RigAgent.get_network_info` -/

/-- Outcome of `socket.gethostname()` / `socket.gethostbyname(...)`:
either a `(hostname, ip)` pair or an exception. -/
def NetResult : Type := Except String (String × String)

/-- Embeds `RigAgent.get_network_info`: on success a dict with the resolved
hostname and IP; on any exception, both fields are `"unknown"`. -/
def get_network_info : NetResult → List (String × Value)
  | .ok hip => [("hostname", Value.str hip.1), ("ip_address", Value.str hip.2)]
  | .error _ => [("hostname", Value.str "unknown"), ("ip_address", Value.str "unknown")]

/-! ## StatusComposer — `RigAgent.collect_status`

The source builds one dict literal:
`{rig_id, timestamp, status, is_testing, test_name, **network_info,
**system_status, **self.metadata, "agent_version": "1.0.0", "os": ...}`.
We keep the bindings in exactly that order; `dget` returns the last
binding of a key, which is the later-merge-wins rule of the literal. -/

/-- The `test_name` field is a string or Python `None`. -/
def optName : Option String → Value
  | some s => Value.str s
  | none => Value.null

/-- The dict literal of `collect_status` (lines 101–112), given the values
of its parts. -/
def composeStatus (rig_id : Value) (timestamp : String) (is_testing : Bool)
    (test_name : Option String) (network_info system_status metadata : List (String × Value))
    (platform_str : String) : List (String × Value) :=
  [("rig_id", rig_id),
   ("timestamp", Value.str timestamp),
   ("status", Value.str (if is_testing then "busy" else "available")),
   ("is_testing", Value.bool is_testing),
   ("test_name", optName test_name)]
  ++ network_info ++ system_status ++ metadata
  ++ [("agent_version", Value.str "1.0.0"), ("os", Value.str platform_str)]

/-- Embeds `RigAgent.collect_status`: run the three probes, then build the dict.
An exception propagating from `collect_system_status` propagates out of
`collect_status` too (there is no handler here); `**self.metadata` raises
`TypeError` when the configured metadata is not a mapping.
`timestamp` stands for `datetime.now(timezone.utc).isoformat()` and
`platform_str` for `platform.platform()`. -/
def collect_status (rig_id metadata : Value) (test_process_names : List String)
    (procs : List ProcEntry) (net : NetResult) (osq : OsQueries)
    (timestamp platform_str : String) : Except String (List (String × Value)) :=
  let r := check_test_running test_process_names procs
  let network_info := get_network_info net
  match collect_system_status osq with
  | .error e => .error e
  | .ok system_status =>
    match metadata with
    | .dict m =>
      .ok (composeStatus rig_id timestamp r.1 r.2 network_info system_status m platform_str)
    | _ => .error "TypeError: argument of type mapping required"

/-! ## HeartbeatTransmitter — `RigAgent.send_heartbeat` -/

/-- Outcome of the `requests.post` call: an HTTP response, or one of the
exceptions the source distinguishes. -/
inductive HttpOutcome where
  | response (status_code : ℕ) (text : String)
  | connectionError
  | timeout
  | otherError (msg : String)
  deriving DecidableEq

/-- Embeds `RigAgent.send_heartbeat`: `True` exactly on HTTP 200, `False` (with a
logged message, returned here as the second component) on any other status
code, on `ConnectionError`, on `Timeout`, and on any other exception.
Every branch returns — nothing escapes the method. -/
def send_heartbeat (server_url rig_id : String) (outcome : HttpOutcome) :
    Bool × String :=
  match outcome with
  | .response code text =>
    if code = 200 then (true, "Heartbeat sent successfully for " ++ rig_id)
    else (false, "Server returned status " ++ toString code ++ ": " ++ text)
  | .connectionError => (false, "Cannot connect to server at " ++ server_url)
  | .timeout => (false, "Server request timed out")
  | .otherError e => (false, "Error sending heartbeat\n" ++ e)

/-! ## Config loading, agent construction, `run`, and the process entry
point (`RigAgent.__init__`, `load_config`, `RigAgent.run`, `__main__`) -/

/-- State of the config file as `load_config` sees it: missing, present
but not valid JSON, or parsed into a JSON object. -/
inductive ConfigLoad where
  | fileNotFound
  | badJson (msg : String)
  | parsed (cfg : List (String × Value))

/-- The constructed agent: the raw config dict plus the fields
`__init__` extracts from it. -/
structure RigAgent where
  config : List (String × Value)
  server_url : Value
  api_key : Value
  rig_id : Value
  metadata : Value

/-- Result of `RigAgent.__init__`: `load_config` exits the process with
status 1 on a missing/malformed file (the logged fatal path); a parsed
config missing a required key raises an uncaught `KeyError` from the
`self.config["..."]` subscript; otherwise the agent is built, with
`metadata` defaulting to `{}` via `config.get("metadata", {})`. -/
inductive InitResult where
  | exit1
  | keyError (key : String)
  | ok (a : RigAgent)

/-- Embeds `RigAgent.__init__` (with `load_config` inlined as its first step).
The required keys are read in source order: `server_url`, `api_key`,
`rig_id`. -/
def rigAgentInit : ConfigLoad → InitResult
  | ConfigLoad.fileNotFound => InitResult.exit1
  | ConfigLoad.badJson _ => InitResult.exit1
  | ConfigLoad.parsed cfg =>
    match dget cfg "server_url" with
    | none => InitResult.keyError "server_url"
    | some su =>
      match dget cfg "api_key" with
      | none => InitResult.keyError "api_key"
      | some ak =>
        match dget cfg "rig_id" with
        | none => InitResult.keyError "rig_id"
        | some rid =>
          InitResult.ok ⟨cfg, su, ak, rid, (dget cfg "metadata").getD (Value.dict [])⟩

/-- Embeds `self.config.get("test_process_names", [])`, as consumed by the `in`
test of `check_test_running`.  Per spec §6 the field is a sequence of
strings; comparing a process-name string against a non-string entry is
`False` in Python, so non-string entries never match and are dropped. -/
def configTestNames (cfg : List (String × Value)) : List String :=
  match dget cfg "test_process_names" with
  | some (Value.list vs) =>
    vs.filterMap (fun v => match v with | Value.str s => some s | _ => none)
  | _ => []

/-- Python `str()` of a value, as used by the f-strings in log messages
(only its `str` case matters to any claim). -/
def vshow : Value → String
  | Value.str s => s
  | Value.num q => toString q
  | Value.bool true => "True"
  | Value.bool false => "False"
  | Value.null => "None"
  | Value.list _ => "[...]"
  | Value.dict _ => "\x7b...\x7d"

/-- Result of `RigAgent.run`: either the body ran to the end (carrying the
boolean `send_heartbeat` returned), or the `except Exception` handler
caught an exception and called `sys.exit(1)`. -/
inductive RunResult where
  | completed (sent : Bool)
  | exitedOne
  deriving DecidableEq

/-- Embeds `RigAgent.run`: collect the status and send it; any exception raised
by `collect_status` is caught and turns into `sys.exit(1)`.
`send_heartbeat` handles its own exceptions and always returns. -/
def agentRun (a : RigAgent) (procs : List ProcEntry) (net : NetResult)
    (osq : OsQueries) (timestamp platform_str : String)
    (http : HttpOutcome) : RunResult :=
  match collect_status a.rig_id a.metadata (configTestNames a.config)
      procs net osq timestamp platform_str with
  | .error _ => RunResult.exitedOne
  | .ok _status =>
    RunResult.completed (send_heartbeat (vshow a.server_url) (vshow a.rig_id) http).1

/-- How the whole process ends: a normal interpreter exit with a status
code, or death by an unhandled exception. -/
inductive ProcOutcome where
  | exited (code : ℕ)
  | uncaught (exc : String)
  deriving DecidableEq

/-- The `__main__` block: construct the agent, then `run()`.  Falling off
the end of the script is exit status 0; `sys.exit(1)` is exit status 1; an
uncaught `KeyError` from `__init__` kills the process with an unhandled
exception (no handler surrounds the constructor call). -/
def pyMain (load : ConfigLoad) (procs : List ProcEntry) (net : NetResult)
    (osq : OsQueries) (timestamp platform_str : String)
    (http : HttpOutcome) : ProcOutcome :=
  match rigAgentInit load with
  | InitResult.exit1 => ProcOutcome.exited 1
  | InitResult.keyError k => ProcOutcome.uncaught ("KeyError: " ++ k)
  | InitResult.ok a =>
    match agentRun a procs net osq timestamp platform_str http with
    | RunResult.completed _ => ProcOutcome.exited 0
    | RunResult.exitedOne => ProcOutcome.exited 1

/-! ## Concrete fixtures for witnesses and counterexamples -/

/-- The payload of a successful `collect_status` call. -/
def okPayload (r : Except String (List (String × Value))) : List (String × Value) :=
  match r with
  | .ok l => l
  | .error _ => []

/-- A well-formed config dict with the three required keys. -/
def exCfg : List (String × Value) :=
  [("server_url", Value.str "http://x"), ("api_key", Value.str "k"),
   ("rig_id", Value.str "r1")]

/-- The agent `__init__` builds from `exCfg`. -/
def exAgent : RigAgent :=
  ⟨exCfg, Value.str "http://x", Value.str "k", Value.str "r1", Value.dict []⟩

/-- OS queries that all succeed. -/
def exOsq : OsQueries :=
  ⟨Except.ok 0, Except.ok 0, Except.ok 0, Except.ok 0, Except.ok 0,
   Except.ok 0, Except.ok 0, 0⟩

/-- A successful hostname/IP resolution. -/
def exNet : NetResult := Except.ok ("h1", "10.0.0.1")

/-! ## Helper lemmas -/

theorem dget_nil (key : String) : dget [] key = none := rfl

theorem dget_append (l₁ l₂ : List (String × Value)) (key : String) :
    dget (l₁ ++ l₂) key =
      match dget l₂ key with
      | some w => some w
      | none => dget l₁ key := by
  induction l₁ with
  | nil =>
    cases h : dget l₂ key <;> simp [dget, h]
  | cons p rest ih =>
    obtain ⟨k, v⟩ := p
    have step : dget ((k, v) :: rest ++ l₂) key =
        match dget (rest ++ l₂) key with
        | some w => some w
        | none => if k = key then some v else none := rfl
    rw [step, ih]
    cases h : dget l₂ key <;> cases h' : dget rest key <;> simp [dget, h']

/-- If no accessible process name is in `test_processes`, the scan finds
nothing. -/
theorem check_test_running_eq_none (tp : List String) (procs : List ProcEntry)
    (h : ∀ n, ProcEntry.ok n ∈ procs → n ∉ tp) :
    check_test_running tp procs = (false, none) := by
  induction procs with
  | nil => rfl
  | cons p rest ih =>
    cases p with
    | ok n =>
      have hn : n ∉ tp := h n (List.mem_cons_self _ _)
      simp only [check_test_running, if_neg hn]
      exact ih fun m hm => h m (List.mem_cons_of_mem _ hm)
    | denied =>
      exact ih fun m hm => h m (List.mem_cons_of_mem _ hm)

/-- A successful scan result is the name of an accessible process and a
member of the configured list. -/
theorem check_test_running_sound (tp : List String) (procs : List ProcEntry)
    (b : Bool) (m : String) (h : check_test_running tp procs = (b, some m)) :
    b = true ∧ m ∈ tp ∧ ProcEntry.ok m ∈ procs := by
  induction procs with
  | nil => exact absurd h (by simp [check_test_running])
  | cons p rest ih =>
    cases p with
    | ok n =>
      by_cases hn : n ∈ tp
      · simp only [check_test_running, if_pos hn] at h
        injection h with hb hm
        injection hm with hm
        subst hm
        exact ⟨hb.symm, hn, List.mem_cons_self _ _⟩
      · simp only [check_test_running, if_neg hn] at h
        obtain ⟨hb, hmem⟩ := ih h
        exact ⟨hb, hmem.1, List.mem_cons_of_mem _ hmem.2⟩
    | denied =>
      simp only [check_test_running] at h
      obtain ⟨hb, hmem⟩ := ih h
      exact ⟨hb, hmem.1, List.mem_cons_of_mem _ hmem.2⟩

/-- The scan returns on the first accessible process whose name is
configured. -/
theorem check_test_running_first (tp : List String) (pre post : List ProcEntry)
    (n : String) (hpre : ∀ m, ProcEntry.ok m ∈ pre → m ∉ tp) (hn : n ∈ tp) :
    check_test_running tp (pre ++ ProcEntry.ok n :: post) = (true, some n) := by
  induction pre with
  | nil => simp [check_test_running, if_pos hn]
  | cons p rest ih =>
    cases p with
    | ok m =>
      have hm : m ∉ tp := hpre m (List.mem_cons_self _ _)
      simp only [List.cons_append, check_test_running, if_neg hm]
      exact ih fun x hx => hpre x (List.mem_cons_of_mem _ hx)
    | denied =>
      exact ih fun x hx => hpre x (List.mem_cons_of_mem _ hx)

/-! ## Claims about the process probe -/

/-- C5: for every configured `test_process_names` list and every live
process table, if no accessible live process name is a member of the list —
in particular whenever the list is empty — `check_test_running` returns
`(False, None)`. -/
theorem detect_activity_no_match :
    (∀ (tp : List String) (procs : List ProcEntry),
      (∀ n, ProcEntry.ok n ∈ procs → n ∉ tp) →
      check_test_running tp procs = (false, none))
    ∧ (∀ procs : List ProcEntry, check_test_running [] procs = (false, none)) :=
  ⟨check_test_running_eq_none,
   fun procs => check_test_running_eq_none [] procs (by simp)⟩

/-- C5 witness: a concrete table with no matching accessible name. -/
theorem detect_activity_no_match_witness :
    check_test_running ["hil.exe"] [ProcEntry.ok "other.exe", ProcEntry.denied]
      = (false, none) :=
  detect_activity_no_match.1 ["hil.exe"] [ProcEntry.ok "other.exe", ProcEntry.denied]
    (by intro n hn; simp at hn; subst hn; decide)

/-- C6: if some accessible live process name exactly matches an entry of
the configured list, `check_test_running` returns `(True, name)` for the
first such process; matching is case-sensitive exact string equality with
no substring matching. -/
theorem detect_activity_match :
    (∀ (tp : List String) (pre post : List ProcEntry) (n : String),
      (∀ m, ProcEntry.ok m ∈ pre → m ∉ tp) → n ∈ tp →
      check_test_running tp (pre ++ ProcEntry.ok n :: post) = (true, some n))
    ∧ (∀ (tp : List String) (procs : List ProcEntry) (b : Bool) (m : String),
      check_test_running tp procs = (b, some m) →
      b = true ∧ m ∈ tp ∧ ProcEntry.ok m ∈ procs)
    ∧ check_test_running ["hil"] [ProcEntry.ok "hil.exe"] = (false, none)
    ∧ check_test_running ["hil.exe"] [ProcEntry.ok "hil"] = (false, none)
    ∧ check_test_running ["HIL.exe"] [ProcEntry.ok "hil.exe"] = (false, none)
    ∧ check_test_running ["b", "a"]
        [ProcEntry.denied, ProcEntry.ok "a", ProcEntry.ok "b"] = (true, some "a") :=
  ⟨check_test_running_first, check_test_running_sound, by decide, by decide, by decide,
   by decide⟩

/-- C6 witness: the first accessible match is returned on a concrete
table. -/
theorem detect_activity_match_witness :
    check_test_running ["hil.exe"] [ProcEntry.ok "python.exe", ProcEntry.ok "hil.exe"]
      = (true, some "hil.exe") :=
  detect_activity_match.1 ["hil.exe"] [ProcEntry.ok "python.exe"] [] "hil.exe"
    (by intro m hm; simp at hm; subst hm; decide) (by decide)

/-! ## Claim about the transmitter -/

/-- C3: `send_heartbeat` returns `True` if and only if the HTTP response
status is 200; it is a total function of the transport outcome (every
exception branch returns `False` instead of re-raising), and connection
refused, timeout, HTTP 500 and HTTP 401 each produce a different logged
cause. -/
theorem send_heartbeat_contract :
    (∀ (u r : String) (o : HttpOutcome),
      (send_heartbeat u r o).1 = true ↔ ∃ t, o = HttpOutcome.response 200 t)
    ∧ (send_heartbeat "http://x" "r1" HttpOutcome.connectionError).1 = false
    ∧ (send_heartbeat "http://x" "r1" HttpOutcome.timeout).1 = false
    ∧ (send_heartbeat "http://x" "r1" (HttpOutcome.response 500 "boom")).1 = false
    ∧ (send_heartbeat "http://x" "r1" (HttpOutcome.response 401 "denied")).1 = false
    ∧ (send_heartbeat "http://x" "r1" HttpOutcome.connectionError).2
        ≠ (send_heartbeat "http://x" "r1" HttpOutcome.timeout).2
    ∧ (send_heartbeat "http://x" "r1" HttpOutcome.connectionError).2
        ≠ (send_heartbeat "http://x" "r1" (HttpOutcome.response 500 "")).2
    ∧ (send_heartbeat "http://x" "r1" HttpOutcome.connectionError).2
        ≠ (send_heartbeat "http://x" "r1" (HttpOutcome.response 401 "")).2
    ∧ (send_heartbeat "http://x" "r1" HttpOutcome.timeout).2
        ≠ (send_heartbeat "http://x" "r1" (HttpOutcome.response 500 "")).2
    ∧ (send_heartbeat "http://x" "r1" HttpOutcome.timeout).2
        ≠ (send_heartbeat "http://x" "r1" (HttpOutcome.response 401 "")).2
    ∧ (send_heartbeat "http://x" "r1" (HttpOutcome.response 500 "")).2
        ≠ (send_heartbeat "http://x" "r1" (HttpOutcome.response 401 "")).2 := by
  refine ⟨?_, by decide, by decide, by decide, by decide,
    by decide, by decide, by decide, by decide, by decide, by decide⟩
  intro u r o
  cases o with
  | response code text =>
    by_cases hc : code = 200
    · subst hc
      simp only [send_heartbeat, if_pos rfl]
      exact ⟨fun _ => ⟨text, rfl⟩, fun _ => rfl⟩
    · simp only [send_heartbeat, if_neg hc]
      constructor
      · intro h; exact absurd h (by simp)
      · rintro ⟨t, ht⟩
        injection ht with h200 _
        exact absurd h200 hc
  | connectionError =>
    simp only [send_heartbeat]
    constructor
    · intro h; exact absurd h (by simp)
    · rintro ⟨t, ht⟩; exact HttpOutcome.noConfusion ht
  | timeout =>
    simp only [send_heartbeat]
    constructor
    · intro h; exact absurd h (by simp)
    · rintro ⟨t, ht⟩; exact HttpOutcome.noConfusion ht
  | otherError e =>
    simp only [send_heartbeat]
    constructor
    · intro h; exact absurd h (by simp)
    · rintro ⟨t, ht⟩; exact HttpOutcome.noConfusion ht

/-! ## Claims about the metrics collector -/

/-- Half-even rounding lands within 1/2 of the argument. -/
theorem roundHalfEven_close (q : ℚ) : |(roundHalfEven q : ℚ) - q| ≤ 1 / 2 := by
  have hf : (⌊q⌋ : ℚ) ≤ q := Int.floor_le q
  have hf2 : q < ⌊q⌋ + 1 := Int.lt_floor_add_one q
  unfold roundHalfEven
  split_ifs with h1 h2 h3 <;> rw [abs_le] <;> constructor <;> push_cast <;> linarith

/-- The value `pyRound q n` lands within half a unit in the last kept place. -/
theorem pyRound_close (q : ℚ) (n : ℕ) :
    |pyRound q n - q| ≤ 1 / (2 * 10 ^ n) := by
  have hp : (0 : ℚ) < 10 ^ n := by positivity
  have key : pyRound q n - q
      = ((roundHalfEven (q * 10 ^ n) : ℚ) - q * 10 ^ n) / 10 ^ n := by
    rw [pyRound]; field_simp; ring
  rw [key, abs_div, abs_of_pos hp, div_le_iff₀ hp]
  calc |(roundHalfEven (q * 10 ^ n) : ℚ) - q * 10 ^ n| ≤ 1 / 2 :=
        roundHalfEven_close (q * 10 ^ n)
    _ = 1 / (2 * 10 ^ n) * 10 ^ n := by field_simp

/-- Half-even rounding of an integer value is that value. -/
theorem roundHalfEven_intCast (m : ℤ) : roundHalfEven (m : ℚ) = m := by
  rw [roundHalfEven]
  norm_num

/-- Evaluate `pyRound` when the scaled argument is an exact integer. -/
theorem pyRound_eval (q : ℚ) (n : ℕ) (m : ℤ) (h : q * 10 ^ n = (m : ℚ)) :
    pyRound q n = (m : ℚ) / 10 ^ n := by
  rw [pyRound, h, roundHalfEven_intCast]

/-- C2 (code bug): in `collect_system_status` the `psutil.boot_time()`
query sits on the line BEFORE the `try:` block, so its failure propagates
out of the call instead of producing the empty snapshot — while a failure
of any query inside the `try:` (here `cpu_percent`) is caught and yields
`{}` as documented. -/
theorem boot_time_failure_propagates :
    collect_system_status
        ⟨Except.error "OSError", Except.ok 0, Except.ok 0, Except.ok 0,
         Except.ok 0, Except.ok 0, Except.ok 0, 0⟩
      = Except.error "OSError"
    ∧ (Except.error "OSError" : Except String (List (String × Value)))
        ≠ Except.ok []
    ∧ collect_system_status
        ⟨Except.ok 0, Except.error "OSError", Except.ok 0, Except.ok 0,
         Except.ok 0, Except.ok 0, Except.ok 0, 0⟩
      = Except.ok [] :=
  ⟨rfl, fun h => Except.noConfusion h, rfl⟩

/-- C7: every byte-based metric is `round(bytes / 1024**3, 2)` — a value
with at most 2 decimal places, within half of 0.01 of the exact quotient,
and `1073741824` bytes is exactly `1.00` GB; uptime is
`round((now - boot) seconds / 3600, 1)` — at most 1 decimal place, within
half of 0.1 of the exact quotient.  The concrete snapshot conjunct checks
the values the composed snapshot actually carries. -/
theorem byte_to_gb_conversion :
    bytesToGb 1073741824 = 1
    ∧ (∀ b : ℚ, ∃ z : ℤ, bytesToGb b = z / 100)
    ∧ (∀ b : ℚ, |bytesToGb b - b / 1024 ^ 3| ≤ 1 / 200)
    ∧ (∀ now boot : ℚ, ∃ z : ℤ, uptimeHours now boot = z / 10)
    ∧ (∀ now boot : ℚ, |uptimeHours now boot - (now - boot) / 3600| ≤ 1 / 20)
    ∧ collect_system_status
        ⟨Except.ok 0, Except.ok 12, Except.ok 37, Except.ok 1073741824,
         Except.ok 2147483648, Except.ok 55, Except.ok 536870912, 5400⟩
      = Except.ok
        [("cpu_percent", Value.num 12),
         ("memory_percent", Value.num 37),
         ("memory_used_gb", Value.num 1),
         ("memory_total_gb", Value.num 2),
         ("disk_percent", Value.num 55),
         ("disk_free_gb", Value.num (1 / 2)),
         ("uptime_hours", Value.num (3 / 2))] := by
  have h1 : bytesToGb 1073741824 = 1 := by
    rw [bytesToGb, pyRound_eval _ _ 100 (by norm_num)]; norm_num
  have h2 : bytesToGb 2147483648 = 2 := by
    rw [bytesToGb, pyRound_eval _ _ 200 (by norm_num)]; norm_num
  have h3 : bytesToGb 536870912 = 1 / 2 := by
    rw [bytesToGb, pyRound_eval _ _ 50 (by norm_num)]; norm_num
  have h4 : uptimeHours 5400 0 = 3 / 2 := by
    rw [uptimeHours, pyRound_eval _ _ 15 (by norm_num)]; norm_num
  refine ⟨h1, ?_, ?_, ?_, ?_, ?_⟩

  · intro b
    exact ⟨roundHalfEven (b / 1024 ^ 3 * 10 ^ 2), by norm_num [bytesToGb, pyRound]⟩
  · intro b
    have h := pyRound_close (b / 1024 ^ 3) 2
    norm_num at h
    exact h
  · intro now boot
    exact ⟨roundHalfEven ((now - boot) / 3600 * 10 ^ 1), by norm_num [uptimeHours, pyRound]⟩
  · intro now boot
    have h := pyRound_close ((now - boot) / 3600) 1
    norm_num at h
    exact h
  · show Except.ok
        [("cpu_percent", Value.num 12),
         ("memory_percent", Value.num 37),
         ("memory_used_gb", Value.num (bytesToGb 1073741824)),
         ("memory_total_gb", Value.num (bytesToGb 2147483648)),
         ("disk_percent", Value.num 55),
         ("disk_free_gb", Value.num (bytesToGb 536870912)),
         ("uptime_hours", Value.num (uptimeHours 5400 0))] = _
    rw [h1, h2, h3, h4]

/-! ## Merge-precedence lemmas about the composed report -/

/-- A key other than `agent_version` and `os` is not bound by the final
two literal entries. -/
theorem dget_version_tail (plat k : String)
    (hk1 : k ≠ "agent_version") (hk2 : k ≠ "os") :
    dget [("agent_version", Value.str "1.0.0"), ("os", Value.str plat)] k = none := by
  simp [dget, Ne.symm hk1, Ne.symm hk2]

/-- A metadata binding of any key other than the two merged after it wins
in the composed dict. -/
theorem dget_composeStatus_metadata (rig_id : Value) (ts : String) (b : Bool)
    (tn : Option String) (ni ss m : List (String × Value)) (plat k : String)
    (v : Value) (hk1 : k ≠ "agent_version") (hk2 : k ≠ "os")
    (hm : dget m k = some v) :
    dget (composeStatus rig_id ts b tn ni ss m plat) k = some v := by
  simp only [composeStatus, dget_append, dget_version_tail plat k hk1 hk2, hm]

/-- The snapshot dict never binds `status`. -/
theorem dget_status_system (q : OsQueries) (ss : List (String × Value))
    (h : collect_system_status q = Except.ok ss) : dget ss "status" = none := by
  rw [collect_system_status] at h
  cases hb : q.boot_time with
  | error e => rw [hb] at h; exact Except.noConfusion h
  | ok bt =>
    rw [hb] at h
    injection h with h
    subst h
    split <;> rfl

/-- The network dict never binds `status`. -/
theorem dget_status_network (net : NetResult) :
    dget (get_network_info net) "status" = none := by
  cases net <;> rfl

/-- The `status` entry of the composed dict is the derived label whenever
neither the probes nor the metadata rebind the key. -/
theorem dget_composeStatus_status (rig_id : Value) (ts : String) (b : Bool)
    (tn : Option String) (ni ss m : List (String × Value)) (plat : String)
    (hni : dget ni "status" = none) (hss : dget ss "status" = none)
    (hm : dget m "status" = none) :
    dget (composeStatus rig_id ts b tn ni ss m plat) "status"
      = some (Value.str (if b then "busy" else "available")) := by
  have htail : dget [("agent_version", Value.str "1.0.0"), ("os", Value.str plat)]
      "status" = none := rfl
  simp only [composeStatus, dget_append, htail, hni, hss, hm]
  rfl

/-! ## Claims about the composed report -/

/-- C1: whenever a metadata key collides with a built-in report field
(identity, status, network-probe or system-snapshot field — i.e. any key
other than the two bound after the metadata merge), the composed report
carries the metadata value: the dict literal merges network info, then
system snapshot, then metadata, so the metadata binding is the latest. -/
theorem metadata_overrides_builtins (rig_id : Value) (m : List (String × Value))
    (tp : List String) (procs : List ProcEntry) (net : NetResult) (osq : OsQueries)
    (ts plat k : String) (v : Value) (st : List (String × Value))
    (hk1 : k ≠ "agent_version") (hk2 : k ≠ "os") (hm : dget m k = some v)
    (hok : collect_status rig_id (Value.dict m) tp procs net osq ts plat
      = Except.ok st) :
    dget st k = some v := by
  rw [collect_status] at hok
  cases hos : collect_system_status osq with
  | error e => rw [hos] at hok; exact Except.noConfusion hok
  | ok ss =>
    rw [hos] at hok
    injection hok with hok
    subst hok
    exact dget_composeStatus_metadata _ _ _ _ _ _ _ _ _ _ hk1 hk2 hm

/-- C1 witness: a metadata entry for `hostname` (a network-probe field)
ends up as the report's `hostname` value. -/
theorem metadata_overrides_builtins_witness :
    dget (okPayload (collect_status (Value.str "r1")
        (Value.dict [("hostname", Value.str "meta-host")]) [] [] exNet exOsq
        "2025-01-01T00:00:00+00:00" "Windows-11")) "hostname"
      = some (Value.str "meta-host") :=
  metadata_overrides_builtins (Value.str "r1") [("hostname", Value.str "meta-host")]
    [] [] exNet exOsq "2025-01-01T00:00:00+00:00" "Windows-11" "hostname"
    (Value.str "meta-host") _ (by decide) (by decide) rfl rfl

/-- C9: every composed report binds `agent_version` to the literal
`"1.0.0"` and `os` to the platform string, and these two are merged AFTER
the metadata, so no metadata entry can override them. -/
theorem report_version_and_os (rig_id metadata : Value) (tp : List String)
    (procs : List ProcEntry) (net : NetResult) (osq : OsQueries)
    (ts plat : String) (st : List (String × Value))
    (hok : collect_status rig_id metadata tp procs net osq ts plat = Except.ok st) :
    dget st "agent_version" = some (Value.str "1.0.0")
    ∧ dget st "os" = some (Value.str plat) := by
  rw [collect_status] at hok
  cases hos : collect_system_status osq with
  | error e => rw [hos] at hok; exact Except.noConfusion hok
  | ok ss =>
    rw [hos] at hok
    cases metadata with
    | dict m =>
      injection hok with hok
      subst hok
      have hav : dget [("agent_version", Value.str "1.0.0"), ("os", Value.str plat)]
          "agent_version" = some (Value.str "1.0.0") := rfl
      have hos' : dget [("agent_version", Value.str "1.0.0"), ("os", Value.str plat)]
          "os" = some (Value.str plat) := rfl
      constructor
      · simp only [composeStatus, dget_append, hav]
      · simp only [composeStatus, dget_append, hos']
    | str s => exact Except.noConfusion hok
    | num q => exact Except.noConfusion hok
    | bool b => exact Except.noConfusion hok
    | null => exact Except.noConfusion hok
    | list xs => exact Except.noConfusion hok

/-- C9 witness: a metadata mapping that tries to rebind both keys still
loses to the fixed fields. -/
theorem report_version_and_os_witness :
    dget (okPayload (collect_status (Value.str "r1")
        (Value.dict [("agent_version", Value.str "9.9"), ("os", Value.str "fake")])
        [] [] exNet exOsq "2025-01-01T00:00:00+00:00" "Windows-11")) "agent_version"
      = some (Value.str "1.0.0")
    ∧ dget (okPayload (collect_status (Value.str "r1")
        (Value.dict [("agent_version", Value.str "9.9"), ("os", Value.str "fake")])
        [] [] exNet exOsq "2025-01-01T00:00:00+00:00" "Windows-11")) "os"
      = some (Value.str "Windows-11") :=
  report_version_and_os (Value.str "r1")
    (Value.dict [("agent_version", Value.str "9.9"), ("os", Value.str "fake")])
    [] [] exNet exOsq "2025-01-01T00:00:00+00:00" "Windows-11" _ rfl

/-- C4 counterexample: with metadata `{"status": "available"}` and the
workload running, the composed report's `status` value is `"available"`
even though `is_testing` is true — the claim fails on reports whose
metadata rebinds `status`. -/
theorem status_label_counterexample :
    (check_test_running ["hil.exe"] [ProcEntry.ok "hil.exe"]).1 = true
    ∧ (collect_status (Value.str "r1") (Value.dict [("status", Value.str "available")])
        ["hil.exe"] [ProcEntry.ok "hil.exe"] exNet exOsq
        "2025-01-01T00:00:00+00:00" "Windows-11").map (fun st => dget st "status")
      = Except.ok (some (Value.str "available"))
    ∧ Value.str "available" ≠ Value.str "busy" :=
  ⟨rfl, rfl, fun h => by injection h with h; exact absurd h (by decide)⟩

/-- C4 (amended): in every composed report whose metadata does not bind
the key `status`, the status label is `"busy"` iff the probe's
`is_testing` boolean is true and `"available"` iff it is false. -/
theorem status_label_iff_is_testing (rig_id : Value) (m : List (String × Value))
    (tp : List String) (procs : List ProcEntry) (net : NetResult) (osq : OsQueries)
    (ts plat : String) (st : List (String × Value))
    (hm : dget m "status" = none)
    (hok : collect_status rig_id (Value.dict m) tp procs net osq ts plat
      = Except.ok st) :
    (dget st "status" = some (Value.str "busy")
      ↔ (check_test_running tp procs).1 = true)
    ∧ (dget st "status" = some (Value.str "available")
      ↔ (check_test_running tp procs).1 = false) := by
  rw [collect_status] at hok
  cases hos : collect_system_status osq with
  | error e => rw [hos] at hok; exact Except.noConfusion hok
  | ok ss =>
    rw [hos] at hok
    injection hok with hok
    subst hok
    rw [dget_composeStatus_status rig_id ts _ _ _ _ _ plat
      (dget_status_network net) (dget_status_system osq ss hos) hm]
    cases hb : (check_test_running tp procs).1 with
    | true =>
      constructor
      · simp
      · constructor
        · intro h
          injection h with h
          injection h with h
          exact absurd h (by decide)
        · intro h; exact absurd h (by simp)
    | false =>
      constructor
      · constructor
        · intro h
          injection h with h
          injection h with h
          exact absurd h (by decide)
        · intro h; exact absurd h (by simp)
      · simp

/-- C4 witness: with empty metadata and no matching process, the label is
`"available"` and not `"busy"`. -/
theorem status_label_iff_is_testing_witness :
    (dget (okPayload (collect_status (Value.str "r1") (Value.dict [])
        ["hil.exe"] [] exNet exOsq "2025-01-01T00:00:00+00:00" "Windows-11"))
      "status" = some (Value.str "busy")
      ↔ (check_test_running ["hil.exe"] ([] : List ProcEntry)).1 = true)
    ∧ (dget (okPayload (collect_status (Value.str "r1") (Value.dict [])
        ["hil.exe"] [] exNet exOsq "2025-01-01T00:00:00+00:00" "Windows-11"))
      "status" = some (Value.str "available")
      ↔ (check_test_running ["hil.exe"] ([] : List ProcEntry)).1 = false) :=
  status_label_iff_is_testing (Value.str "r1") [] ["hil.exe"] [] exNet exOsq
    "2025-01-01T00:00:00+00:00" "Windows-11" _ rfl rfl

/-! ## Claims about `run` and the process outcome -/

/-- C8: a failed transmission is non-fatal — `send_heartbeat` returns
`False` on a connection error, yet when the status was collected without
an exception the run completes and the process exits with status 0; a
config-load failure, and an exception escaping `collect_status` during
the cycle, each exit with status 1. -/
theorem failed_send_nonfatal :
    (∀ u r : String, (send_heartbeat u r HttpOutcome.connectionError).1 = false)
    ∧ (∀ (cfg : List (String × Value)) (a : RigAgent) (procs : List ProcEntry)
        (net : NetResult) (osq : OsQueries) (ts plat : String)
        (st : List (String × Value)),
        rigAgentInit (ConfigLoad.parsed cfg) = InitResult.ok a →
        collect_status a.rig_id a.metadata (configTestNames a.config)
            procs net osq ts plat = Except.ok st →
        pyMain (ConfigLoad.parsed cfg) procs net osq ts plat
            HttpOutcome.connectionError = ProcOutcome.exited 0)
    ∧ (∀ (procs : List ProcEntry) (net : NetResult) (osq : OsQueries)
        (ts plat : String) (http : HttpOutcome),
        pyMain ConfigLoad.fileNotFound procs net osq ts plat http
          = ProcOutcome.exited 1)
    ∧ (∀ (e : String) (procs : List ProcEntry) (net : NetResult) (osq : OsQueries)
        (ts plat : String) (http : HttpOutcome),
        pyMain (ConfigLoad.badJson e) procs net osq ts plat http
          = ProcOutcome.exited 1)
    ∧ (∀ (cfg : List (String × Value)) (a : RigAgent) (procs : List ProcEntry)
        (net : NetResult) (osq : OsQueries) (ts plat e : String)
        (http : HttpOutcome),
        rigAgentInit (ConfigLoad.parsed cfg) = InitResult.ok a →
        collect_status a.rig_id a.metadata (configTestNames a.config)
            procs net osq ts plat = Except.error e →
        pyMain (ConfigLoad.parsed cfg) procs net osq ts plat http
          = ProcOutcome.exited 1) := by
  refine ⟨fun u r => rfl, ?_, fun _ _ _ _ _ _ => rfl, fun _ _ _ _ _ _ _ => rfl, ?_⟩
  · intro cfg a procs net osq ts plat st hinit hcollect
    simp [pyMain, agentRun, hinit, hcollect]
  · intro cfg a procs net osq ts plat e http hinit hcollect
    simp [pyMain, agentRun, hinit, hcollect]

/-- C8 witness: a valid config with the server unreachable exits 0, and a
missing config file exits 1. -/
theorem failed_send_nonfatal_witness :
    pyMain (ConfigLoad.parsed exCfg) [] exNet exOsq "2025-01-01T00:00:00+00:00"
        "Windows-11" HttpOutcome.connectionError = ProcOutcome.exited 0 :=
  failed_send_nonfatal.2.1 exCfg exAgent [] exNet exOsq
    "2025-01-01T00:00:00+00:00" "Windows-11"
    (okPayload (collect_status exAgent.rig_id exAgent.metadata
      (configTestNames exAgent.config) [] exNet exOsq
      "2025-01-01T00:00:00+00:00" "Windows-11")) rfl rfl

/-- C10: a config that parses as JSON but omits `server_url`, `api_key`
or `rig_id` makes `__init__` die with an uncaught `KeyError` — a process
outcome distinct from every `sys.exit(code)`, in particular from the
logged `sys.exit(1)` used for a missing or malformed config file. -/
theorem missing_config_key_uncaught :
    (∀ (cfg : List (String × Value)), dget cfg "server_url" = none →
      ∀ (procs : List ProcEntry) (net : NetResult) (osq : OsQueries)
        (ts plat : String) (http : HttpOutcome),
      pyMain (ConfigLoad.parsed cfg) procs net osq ts plat http
        = ProcOutcome.uncaught "KeyError: server_url")
    ∧ (∀ (cfg : List (String × Value)) (su : Value),
      dget cfg "server_url" = some su → dget cfg "api_key" = none →
      ∀ (procs : List ProcEntry) (net : NetResult) (osq : OsQueries)
        (ts plat : String) (http : HttpOutcome),
      pyMain (ConfigLoad.parsed cfg) procs net osq ts plat http
        = ProcOutcome.uncaught "KeyError: api_key")
    ∧ (∀ (cfg : List (String × Value)) (su ak : Value),
      dget cfg "server_url" = some su → dget cfg "api_key" = some ak →
      dget cfg "rig_id" = none →
      ∀ (procs : List ProcEntry) (net : NetResult) (osq : OsQueries)
        (ts plat : String) (http : HttpOutcome),
      pyMain (ConfigLoad.parsed cfg) procs net osq ts plat http
        = ProcOutcome.uncaught "KeyError: rig_id")
    ∧ (∀ (s : String) (c : ℕ), ProcOutcome.uncaught s ≠ ProcOutcome.exited c)
    ∧ (∀ (procs : List ProcEntry) (net : NetResult) (osq : OsQueries)
        (ts plat : String) (http : HttpOutcome),
        pyMain ConfigLoad.fileNotFound procs net osq ts plat http
          = ProcOutcome.exited 1) := by
  refine ⟨?_, ?_, ?_, fun s c h => ProcOutcome.noConfusion h,
    fun _ _ _ _ _ _ => rfl⟩
  · intro cfg h procs net osq ts plat http
    simp [pyMain, rigAgentInit, h]
  · intro cfg su h1 h2 procs net osq ts plat http
    simp [pyMain, rigAgentInit, h1, h2]
  · intro cfg su ak h1 h2 h3 procs net osq ts plat http
    simp [pyMain, rigAgentInit, h1, h2, h3]

/-- C10 witness: valid JSON missing `server_url` dies with the uncaught
`KeyError`. -/
theorem missing_config_key_uncaught_witness :
    pyMain (ConfigLoad.parsed [("api_key", Value.str "k"), ("rig_id", Value.str "r1")])
        [] exNet exOsq "2025-01-01T00:00:00+00:00" "Windows-11"
        (HttpOutcome.response 200 "")
      = ProcOutcome.uncaught "KeyError: server_url" :=
  missing_config_key_uncaught.1
    [("api_key", Value.str "k"), ("rig_id", Value.str "r1")] rfl
    [] exNet exOsq "2025-01-01T00:00:00+00:00" "Windows-11"
    (HttpOutcome.response 200 "")

end Agent
